import Mathlib

/-!
Shallow embedding of `backup_multidisk.py` (class `VMBackup`): a KVM/libvirt
multi-disk online backup script.  External commands (`virsh`, `du`, `df`,
`cp`, `chown`) are modelled by an environment that records, per disk, the
outcome of each command the script would run for it, plus the destination
and scratch filesystems' free space.  The filesystem touched by the run is
modelled as the set of files in the run's backup directory and scratch
(temp) directory, by name.
-/

set_option autoImplicit false

namespace VMBackup

/-- Outcome of one external command invocation through `run_command`
(`backup_multidisk.py` lines 44-66): `ok` = exit status 0; `fail` = nonzero
exit status (raises `CalledProcessError` only when `check=True`); `exn` =
the invocation itself raises regardless of `check` (e.g. `TimeoutExpired`
after the 5-minute timeout, or an `OSError`). -/
inductive CmdRes where
  | ok
  | fail
  | exn
deriving DecidableEq

/-- One row of `get_vm_disks` output (lines 109-130) together with the
environment's answers for every external command the script would run for
this disk: `sourceExists` is `os.path.exists(source)`, `sizeMB` the `du -sm`
answer, `duOk` whether `du` succeeds, `snapOk` whether
`virsh snapshot-create-as` succeeds, `copyOk` whether `cp --sparse=always`
succeeds, and `commitRes`/`abortRes`/`destroyRes`/`startRes` the outcomes of
`virsh blockcommit`, `virsh blockjob --abort`, `virsh destroy`,
`virsh start`. -/
structure DiskInfo where
  target : String
  typ : String
  device : String
  source : String
  sourceExists : Bool
  sizeMB : Nat
  duOk : Bool
  snapOk : Bool
  copyOk : Bool
  commitRes : CmdRes
  abortRes : CmdRes
  destroyRes : CmdRes
  startRes : CmdRes
deriving DecidableEq

/-- Environment of one `backup_vm` run: the enumerated disks (in
`domblklist` order, which is the dict iteration order of the code),
`availableMB` = `df -m BACKUP_ROOT` free space, and `scratchAvailMB` = free
space of the scratch (`TEMP_STORAGE`) filesystem, which the code has access
to but may or may not consult. -/
structure Env where
  disks : List DiskInfo
  availableMB : Nat
  scratchAvailMB : Nat
deriving DecidableEq

/-- Files the run creates, by name: `config` is `{vm}.xml`, `image t` is
`{vm}-{t}.qcow2`, `overlay t` is `{vm}-{t}.snapshot` (using the disk target
`t` directly for the per-disk suffix of lines 293-295). -/
inductive FName where
  | config
  | image (target : String)
  | overlay (target : String)
deriving DecidableEq

/-- State of the run's two directories: whether each exists and which files
it holds. -/
structure FS where
  backupDirExists : Bool
  tempDirExists : Bool
  backupFiles : List FName
  tempFiles : List FName
deriving DecidableEq

/-- Filesystem state with neither the backup directory nor the scratch
directory present (before creation, or after emergency cleanup). -/
def emptyFS : FS :=
  { backupDirExists := false, tempDirExists := false
    backupFiles := [], tempFiles := [] }

/-- Errors a `backup_vm` run can end in.  In the source all of these are a
`RuntimeError` (or, for `typeErrorStdoutKwarg`, a `TypeError`), told apart
by message; the constructors record which raise site fired. -/
inductive RunErr where
  /-- Line 268: `"No disks found for VM"`. -/
  | noDisks
  /-- Line 149: a `du` invocation failed inside `calculate_required_space`. -/
  | duFailed
  /-- Line 158: `"No valid disks found for space calculation"`. -/
  | noValidDisks
  /-- Lines 167-170: `"Insufficient space for ... backup"`. -/
  | insufficientSpace
  /-- Line 278 calls `self.run_command(['virsh', 'dumpxml', vm], stdout=...)`
  but `run_command` (line 44) has parameters `(self, cmd, check)` only, so
  the call raises `TypeError: unexpected keyword argument` before any
  command runs. -/
  | typeErrorStdoutKwarg
  /-- Line 320: `"No disks were successfully backed up"`. -/
  | noDiskSucceeded
deriving DecidableEq

/-- Result of one `backup_vm` run: the boolean the function returns, the
exception (caught at line 330) that sent it to the failure path if any, the
number of disks counted in `success_disks`, and the final filesystem
state. -/
structure BackupResult where
  success : Bool
  error : Option RunErr
  successDisks : Nat
  fs : FS
deriving DecidableEq

/-- Python's substring test `needle in hay` on lists of characters. -/
def isSubList (n : List Char) : List Char → Bool
  | [] => n.isEmpty
  | c :: rest => n.isPrefixOf (c :: rest) || isSubList n rest

/-- Python's `excl in vm` substring containment on strings. -/
def pyIn (needle hay : String) : Bool :=
  isSubList needle.toList hay.toList

/-- Python's `str.strip()`: drop leading and trailing whitespace. -/
def pyStrip (s : String) : String :=
  ⟨((s.toList.dropWhile Char.isWhitespace).reverse.dropWhile
      Char.isWhitespace).reverse⟩

/-- Built-in exclusion list of the script (line 22). -/
def EXCLUDE_VMS : List String := ["SPBAPP-EPT-CLONE", "TEMPLATE-*"]

/-- Lines 96-107, `get_running_vms`: split the `virsh list --name
--state-running` output into stripped nonempty lines, then keep a VM name
only when no exclusion entry occurs in it as a substring (`excl in vm`). -/
def get_running_vms (stdoutLines : List String) (exclude_vms : List String) :
    List String :=
  let vms := (stdoutLines.map pyStrip).filter (fun v => v != "")
  vms.filter (fun vm => !(exclude_vms.any (fun excl => pyIn excl vm)))

/-- Lines 136-142: a disk enters the space sum when its type is `file`, its
source is nonempty, and the source path exists. -/
def diskValid (d : DiskInfo) : Bool :=
  d.typ == "file" && d.source != "" && d.sourceExists

/-- Lines 132-151, `calculate_required_space`: sum the `du -sm` size of
every valid disk, skipping (with a warning only) disks that are not
file-backed, have no source, or whose source does not exist; a failing `du`
re-raises. -/
def calculate_required_space : List DiskInfo → Except Unit Nat
  | [] => Except.ok 0
  | d :: rest =>
    if diskValid d then
      if d.duOk then (calculate_required_space rest).map (fun s => d.sizeMB + s)
      else Except.error ()
    else calculate_required_space rest

/-- Lines 163-164: `int(required_space * 2.5)` — for the file sizes at play
`required_space * 2.5` is an exactly-represented float, so the truncation
equals `⌊5 * required / 2⌋`. -/
def required_with_buffer (required_space : Nat) : Nat :=
  5 * required_space / 2

/-- Failure modes of `check_disk_space`. -/
inductive CheckErr where
  /-- A `du` call failed (re-raised from `calculate_required_space`). -/
  | duFailed
  /-- Line 158: zero-sum precondition failure, raised before `df` runs. -/
  | noValidDisks
  /-- Lines 166-170: the `SpaceError` of the spec. -/
  | insufficientSpace
deriving DecidableEq

/-- Lines 153-170, `check_disk_space`: compute the required sum; raise
`noValidDisks` when it is zero (before reading `df`); then read the
destination's free space and raise `insufficientSpace` when it is below
`required_with_buffer`.  `scratchAvailMB` is the scratch filesystem's free
space, which the function receives from the world but never reads. -/
def check_disk_space (disks : List DiskInfo) (availableMB : Nat)
    (scratchAvailMB : Nat) : Option CheckErr :=
  match calculate_required_space disks with
  | Except.error _ => some CheckErr.duFailed
  | Except.ok required =>
    if required = 0 then some CheckErr.noValidDisks
    else if availableMB < required_with_buffer required then
      some CheckErr.insufficientSpace
    else none

/-- Recovery commands of `commit_snapshot` (lines 246-250). -/
inductive RCmd where
  | abortJob
  | destroyVM
  | startVM
deriving DecidableEq

/-- Lines 234-254, `commit_snapshot`: run `virsh blockcommit`; on success
return `true`.  Otherwise run the recovery sequence `blockjob --abort`,
`destroy`, `start`, each with `check=False` so a nonzero exit does not
raise; a command that raises anyway (timeout, `OSError`) jumps to the
`except` at line 251, skipping the remaining recovery commands.  In every
non-`ok` case the function returns `false` and lets nothing escape.  The
second component records which recovery commands were invoked, in order. -/
def commit_snapshot (commitRes abortRes destroyRes startRes : CmdRes) :
    Bool × List RCmd :=
  match commitRes with
  | CmdRes.ok => (true, [])
  | _ =>
    match abortRes with
    | CmdRes.exn => (false, [RCmd.abortJob])
    | _ =>
      match destroyRes with
      | CmdRes.exn => (false, [RCmd.abortJob, RCmd.destroyVM])
      | _ =>
        match startRes with
        | _ => (false, [RCmd.abortJob, RCmd.destroyVM, RCmd.startVM])

/-- Running state of the per-VM disk loop (lines 281-317): the
`success_disks` counter and the files currently present in the backup and
scratch directories. -/
structure LoopState where
  successDisks : Nat
  backupFiles : List FName
  tempFiles : List FName
deriving DecidableEq

/-- Lines 313-316: the per-disk failure cleanup unlinks, when present, the
disk's overlay file (in the scratch directory) and its backup image (in the
backup directory). -/
def removeDiskArtifacts (t : String) (st : LoopState) : LoopState :=
  { st with
    tempFiles := st.tempFiles.filter (fun f => f != FName.overlay t)
    backupFiles := st.backupFiles.filter (fun f => f != FName.image t) }

/-- Lines 282-317, one iteration of the disk loop: skip non-file disks and
disks whose source vanished; otherwise snapshot (creating the overlay in
the scratch directory), sparse-copy the base image into the backup
directory, and block-commit.  Any stage failure raises into the per-disk
`except` (line 311), which removes that disk's two artifacts and moves on;
a fully committed disk bumps `success_disks` and — note — leaves its
overlay file in the scratch directory, since nothing deletes it after the
pivot. -/
def process_disk (st : LoopState) (d : DiskInfo) : LoopState :=
  if d.typ != "file" then st
  else if !d.sourceExists then st
  else if !d.snapOk then removeDiskArtifacts d.target st
  else
    let st1 := { st with tempFiles := st.tempFiles ++ [FName.overlay d.target] }
    if !d.copyOk then removeDiskArtifacts d.target st1
    else
      let st2 :=
        { st1 with backupFiles := st1.backupFiles ++ [FName.image d.target] }
      if (commit_snapshot d.commitRes d.abortRes d.destroyRes d.startRes).fst then
        { st2 with successDisks := st2.successDisks + 1 }
      else removeDiskArtifacts d.target st2

/-- State of the two directories right after line 278 would have completed:
both directories exist, the backup directory holds the configuration
descriptor, the scratch directory is empty. -/
def initialRunState : LoopState :=
  { successDisks := 0, backupFiles := [FName.config], tempFiles := [] }

/-- Lines 323-324: `item.replace(backup_dir / item.name)` for every scratch
file — each scratch file lands in the backup directory, overwriting any
file of the same name. -/
def moveInto (backupFiles tempFiles : List FName) : List FName :=
  backupFiles.filter (fun f => !tempFiles.contains f) ++ tempFiles

/-- Lines 319-344, the endgame of the disk loop: with zero successful disks
raise (line 320) into the emergency-cleanup path, which unlinks every file
of both directories and removes both directories, returning `False`;
otherwise move all scratch residue into the backup directory, remove the
now-empty scratch directory, and return `True`. -/
def finalizeRun (st : LoopState) : BackupResult :=
  if st.successDisks = 0 then
    { success := false, error := some RunErr.noDiskSucceeded
      successDisks := 0, fs := emptyFS }
  else
    { success := true, error := none, successDisks := st.successDisks
      fs := { backupDirExists := true, tempDirExists := false
              backupFiles := moveInto st.backupFiles st.tempFiles
              tempFiles := [] } }

/-- Lines 281-344 as run from the post-export state `initialRunState`: the
disk loop followed by `finalizeRun`.  In the source this region is only
reachable if the configuration-export call of line 278 completes, which the
actual call never does (see `backup_vm`); this definition embeds the region
itself, faithfully, so its own behavior can be settled. -/
def diskPhase (env : Env) : BackupResult :=
  finalizeRun (env.disks.foldl process_disk initialRunState)

/-- Lift a `check_disk_space` failure into the run-level error type. -/
def liftCheckErr : CheckErr → RunErr
  | CheckErr.duFailed => RunErr.duFailed
  | CheckErr.noValidDisks => RunErr.noValidDisks
  | CheckErr.insufficientSpace => RunErr.insufficientSpace

/-- Lines 256-344, `backup_vm`, as the source actually behaves: fail fast
on zero enumerated disks (line 268), then run `check_disk_space`; if that
passes, create both directories, open the config file (creating it empty),
and call `self.run_command(['virsh', 'dumpxml', vm], stdout=open(...))` —
which raises `TypeError` because `run_command` (line 44) accepts no
`stdout` keyword.  The `except` at line 330 then performs the emergency
cleanup, unlinking everything in both directories and removing them, and
returns `False`.  The disk loop (embedded separately as `diskPhase`) is
therefore unreachable in the source. -/
def backup_vm (env : Env) : BackupResult :=
  if env.disks.isEmpty then
    { success := false, error := some RunErr.noDisks
      successDisks := 0, fs := emptyFS }
  else
    match check_disk_space env.disks env.availableMB env.scratchAvailMB with
    | some e =>
      { success := false, error := some (liftCheckErr e)
        successDisks := 0, fs := emptyFS }
    | none =>
      { success := false, error := some RunErr.typeErrorStdoutKwarg
        successDisks := 0, fs := emptyFS }

/-- Per-VM inputs of the `main` loop (lines 360-375): the `virsh domstate`
answer, the guest-agent ping answer, and the environment `backup_vm` will
run in. -/
structure VMEnv where
  stateRunning : Bool
  qgaOk : Bool
  env : Env
deriving DecidableEq

/-- How processing one VM inside the loop ends: the preconditions and
`backup_vm` complete with `True`; or `backup_vm` returns `False`
(line 366); or `check_vm_state` / `check_qga` raises into the per-VM
`except` at line 372. -/
inductive VMStep where
  | ok
  | backupFailed
  | raised
deriving DecidableEq

/-- Lines 362-370, the body of the per-VM loop: `check_vm_state` raises
when the VM is not running, `check_qga` raises when the agent ping fails
(QGA_REQUIRED is `True`), otherwise `backup_vm` decides the outcome. -/
def process_one_vm (v : VMEnv) : VMStep :=
  if !v.stateRunning then VMStep.raised
  else if !v.qgaOk then VMStep.raised
  else if (backup_vm v.env).success then VMStep.ok
  else VMStep.backupFailed

/-- Lines 360-375, the per-VM loop: every exception is caught at the VM
boundary, `backup_status` is set to 1 on any non-ok step and never reset,
and the loop continues with the next VM.  Returns the final
`backup_status` and the per-VM steps actually processed, in order. -/
def main_loop (status : Nat) : List VMEnv → Nat × List VMStep
  | [] => (status, [])
  | v :: rest =>
    let s := process_one_vm v
    let r := main_loop (match s with | VMStep.ok => status | _ => 1) rest
    (r.fst, s :: r.snd)

/-- Lines 346-387, `main`: a controller-level fatal error
(`validate_environment` or the inventory query raising) sets
`backup_status` to 1 before the loop ever runs; otherwise the loop runs
over the VM list and the process exits with the resulting
`backup_status`. -/
def main_exit (envFatal : Bool) (vms : List VMEnv) : Nat :=
  if envFatal then 1 else (main_loop 0 vms).fst

/-! Concrete inputs used by the claim theorems and witnesses. -/

/-- A file-backed disk whose every external command succeeds. -/
def okDisk : DiskInfo :=
  { target := "vda", typ := "file", device := "disk"
    source := "/var/lib/libvirt/images/a.qcow2", sourceExists := true
    sizeMB := 100, duOk := true, snapOk := true, copyOk := true
    commitRes := CmdRes.ok, abortRes := CmdRes.ok
    destroyRes := CmdRes.ok, startRes := CmdRes.ok }

/-- A single all-succeeding disk of a given size. -/
def sizedDisk (s : Nat) : DiskInfo :=
  { okDisk with sizeMB := s }

/-- A file-backed disk whose source path no longer exists. -/
def missingDisk : DiskInfo :=
  { okDisk with
    target := "vdm", source := "/var/lib/libvirt/images/m.qcow2",
    sourceExists := false }

/-- A disk whose snapshot creation fails. -/
def snapFailDisk : DiskInfo :=
  { okDisk with
    target := "vdb", source := "/var/lib/libvirt/images/b.qcow2",
    snapOk := false }

/-- A disk whose sparse copy fails. -/
def copyFailDisk : DiskInfo :=
  { okDisk with
    target := "vdc", source := "/var/lib/libvirt/images/c.qcow2",
    copyOk := false }

/-- Environment with one all-succeeding disk and ample destination space. -/
def envAllOk : Env :=
  { disks := [okDisk], availableMB := 100000, scratchAvailMB := 100000 }

/-- Environment with one fully succeeding disk and one disk failing at the
snapshot stage. -/
def envPartial : Env :=
  { disks := [okDisk, snapFailDisk], availableMB := 100000
    scratchAvailMB := 100000 }

/-- Environment in which both disks fail (snapshot stage and copy stage). -/
def envBothFail : Env :=
  { disks := [snapFailDisk, copyFailDisk], availableMB := 100000
    scratchAvailMB := 100000 }

/-! Helper lemmas shared by the claim theorems. -/

/-- The `required_with_buffer` sum over a disk list, with every needed `du`
succeeding, is the sum of sizes of the valid (file-backed, nonempty source,
existing) disks; missing-source disks are excluded without error. -/
theorem calculate_required_space_eq :
    ∀ disks : List DiskInfo,
      (∀ d ∈ disks, diskValid d = true → d.duOk = true) →
      calculate_required_space disks =
        Except.ok (((disks.filter diskValid).map DiskInfo.sizeMB).sum)
  | [], _ => rfl
  | d :: rest, hdu => by
    have ih := calculate_required_space_eq rest
      (fun x hx hv => hdu x (List.mem_cons_of_mem _ hx) hv)
    by_cases hv : diskValid d
    · have hd := hdu d (List.mem_cons_self _ _) hv
      simp [calculate_required_space, hv, hd, ih, List.filter_cons, Except.map]
    · simp [calculate_required_space, hv, ih, List.filter_cons]

/-- The per-VM loop records every VM's step, in order: no failure removes a
later VM from processing. -/
theorem main_loop_snd (status : Nat) (vms : List VMEnv) :
    (main_loop status vms).snd = vms.map process_one_vm := by
  induction vms generalizing status with
  | nil => rfl
  | cons v rest ih =>
    cases h : process_one_vm v <;> simp [main_loop, h, ih]

/-- Once `backup_status` is 1 it stays 1 for the rest of the loop. -/
theorem main_loop_sticky (vms : List VMEnv) : (main_loop 1 vms).fst = 1 := by
  induction vms with
  | nil => rfl
  | cons v rest ih =>
    cases h : process_one_vm v <;> simp [main_loop, h, ih]

/-- Starting from status 0, the loop ends with status 0 exactly when every
VM's step was `ok`. -/
theorem main_loop_zero (vms : List VMEnv) :
    (main_loop 0 vms).fst = 0 ↔ ∀ v ∈ vms, process_one_vm v = VMStep.ok := by
  induction vms with
  | nil => simp [main_loop]
  | cons v rest ih =>
    cases h : process_one_vm v with
    | ok => simp [main_loop, h, ih]
    | backupFailed => simp [main_loop, h, main_loop_sticky]
    | raised => simp [main_loop, h, main_loop_sticky]

/-- The loop status is always 0 or 1 when it starts at 0 or 1. -/
theorem main_loop_fst_cases :
    ∀ (vms : List VMEnv) (status : Nat), status = 0 ∨ status = 1 →
      (main_loop status vms).fst = 0 ∨ (main_loop status vms).fst = 1
  | [], _, h => h
  | v :: rest, status, h => by
    cases hs : process_one_vm v with
    | ok => simpa [main_loop, hs] using main_loop_fst_cases rest status h
    | backupFailed =>
      simpa [main_loop, hs] using main_loop_fst_cases rest 1 (Or.inr rfl)
    | raised =>
      simpa [main_loop, hs] using main_loop_fst_cases rest 1 (Or.inr rfl)

/-! Claim theorems. -/

/-- C1 (code bug).  The spec says `backup_vm` exports the VM's
configuration descriptor into the run's backup directory and that the
export completes whenever the external dump command succeeds.  In the
source, line 278 calls `self.run_command(['virsh', 'dumpxml', vm],
stdout=open(config_file, 'w'))`, but `run_command` (line 44) has no
`stdout` parameter, so the call raises `TypeError` before `virsh dumpxml`
is ever invoked; the emergency-cleanup path then deletes the (empty)
config file and both directories and the run fails.  Evaluated here on an
environment in which every external command succeeds and space is ample. -/
theorem c1_config_export_code_bug :
    (backup_vm envAllOk).error = some RunErr.typeErrorStdoutKwarg ∧
    (backup_vm envAllOk).success = false ∧
    FName.config ∉ (backup_vm envAllOk).fs.backupFiles ∧
    (backup_vm envAllOk).fs = emptyFS := by
  decide

/-- C2 (code bug).  The spec says the exclusion rule `"TEMPLATE-*"` uses
trailing-wildcard prefix matching, so running VMs `["A","B","TEMPLATE-X"]`
resolve to `["A","B"]`.  The source (line 104) tests `excl in vm`, plain
substring containment, under which `"TEMPLATE-*"` only matches names
containing a literal asterisk: `"TEMPLATE-X"` is kept. -/
theorem c2_exclusion_wildcard_code_bug :
    get_running_vms ["A", "B", "TEMPLATE-X"] EXCLUDE_VMS
      = ["A", "B", "TEMPLATE-X"] ∧
    get_running_vms ["A", "B", "TEMPLATE-X"] EXCLUDE_VMS ≠ ["A", "B"] := by
  decide

/-- C3 counterexample.  The claim says the capacity check fails exactly
when `A < S * 2.5`.  At `S = 1001`, `A = 2502` we have
`2 * 2502 < 5 * 1001` (i.e. `A < S * 2.5`), yet the check passes, because
the source truncates: `int(required_space * 2.5)` is 2502. -/
theorem c3_capacity_claim_counterexample :
    ¬ ((check_disk_space [sizedDisk 1001] 2502 0 ≠ none) ↔
        2 * 2502 < 5 * 1001) := by
  decide

/-- C3 (amended).  For every positive disk-size sum `S` and available
space `A`, the capacity check fails iff `A < ⌊S * 2.5⌋ = 5 * S / 2`
(integer division), and passes iff `5 * S / 2 ≤ A`. -/
theorem c3_capacity_threshold (disks : List DiskInfo) (S A sc : Nat)
    (hS : calculate_required_space disks = Except.ok S) (h0 : 0 < S) :
    (check_disk_space disks A sc = none ↔ 5 * S / 2 ≤ A) ∧
    (check_disk_space disks A sc ≠ none ↔ A < 5 * S / 2) := by
  have hne : S ≠ 0 := Nat.pos_iff_ne_zero.mp h0
  unfold check_disk_space required_with_buffer
  rw [hS]
  by_cases h : A < 5 * S / 2 <;> simp [hne, h] <;> omega

/-- C3 witness: the spec's own example, `S = 1000`, `A = 2500`. -/
theorem c3_capacity_threshold_witness :
    (check_disk_space [sizedDisk 1000] 2500 0 = none ↔ 5 * 1000 / 2 ≤ 2500) ∧
    (check_disk_space [sizedDisk 1000] 2500 0 ≠ none ↔ 2500 < 5 * 1000 / 2) :=
  c3_capacity_threshold [sizedDisk 1000] 1000 2500 0 rfl (by decide)

/-- C4 (code bug).  The claim says a successful run's backup directory
holds only the configuration and the images of fully successful disks —
no overlay/snapshot files.  On the two-disk input of the claim (disk `vda`
fully succeeds, disk `vdb` fails at the snapshot stage), the
post-config-export region of `backup_vm` (lines 281-344, embedded as
`diskPhase`) finishes successfully but its final pass (lines 323-324)
moves `vda`'s snapshot overlay from the scratch directory into the backup
directory, which therefore contains an overlay file.  Moreover the full
`backup_vm` cannot even reach a successful run: the config-export
`TypeError` of line 278 fails every run. -/
theorem c4_backup_dir_gains_overlay_code_bug :
    (diskPhase envPartial).success = true ∧
    (diskPhase envPartial).successDisks = 1 ∧
    (diskPhase envPartial).fs.backupFiles =
      [FName.config, FName.image "vda", FName.overlay "vda"] ∧
    FName.overlay "vda" ∈ (diskPhase envPartial).fs.backupFiles ∧
    (backup_vm envPartial).success = false := by
  decide

/-- C5 (confirmed).  Every run in which zero disks succeed — in the source
that is every run, since the config-export `TypeError` aborts each one, and
in the post-export region `diskPhase` every run whose loop counts zero
successful disks — reports failure and leaves neither the backup directory
nor the scratch directory nor any file of the run behind. -/
theorem c5_zero_success_total_cleanup :
    (∀ env : Env, (backup_vm env).successDisks = 0 →
      (backup_vm env).success = false ∧ (backup_vm env).fs = emptyFS) ∧
    (∀ env : Env, (diskPhase env).successDisks = 0 →
      (diskPhase env).success = false ∧ (diskPhase env).fs = emptyFS) := by
  constructor
  · intro env _
    unfold backup_vm
    split
    · exact ⟨rfl, rfl⟩
    · split
      all_goals exact ⟨rfl, rfl⟩
  · intro env h
    by_cases h0 : (env.disks.foldl process_disk initialRunState).successDisks = 0
    · simp [diskPhase, finalizeRun, h0]
    · simp [diskPhase, finalizeRun, h0] at h

/-- C5 witness: the claim's own two-disk all-fail scenario. -/
theorem c5_zero_success_total_cleanup_witness :
    ((backup_vm envBothFail).success = false ∧
      (backup_vm envBothFail).fs = emptyFS) ∧
    ((diskPhase envBothFail).success = false ∧
      (diskPhase envBothFail).fs = emptyFS) :=
  ⟨c5_zero_success_total_cleanup.1 envBothFail (by decide),
   c5_zero_success_total_cleanup.2 envBothFail (by decide)⟩

/-- C6 (code bug).  The claim says the VM outcome is Succeeded iff at
least one disk succeeded.  The aggregation of the post-export region does
satisfy this (third conjunct: `diskPhase` succeeds iff its loop counted a
successful disk, so partial success is success), but the source's
`backup_vm` returns failure for every VM — even one whose single disk
backup would fully succeed — because the config-export `TypeError`
(line 278) aborts the run before any disk is processed. -/
theorem c6_outcome_aggregation_code_bug :
    (diskPhase envAllOk).success = true ∧
    (diskPhase envAllOk).successDisks = 1 ∧
    (backup_vm envAllOk).success = false ∧
    (∀ env : Env,
      (diskPhase env).success = true ↔ 0 < (diskPhase env).successDisks) := by
  refine ⟨by decide, by decide, by decide, ?_⟩
  intro env
  by_cases h0 : (env.disks.foldl process_disk initialRunState).successDisks = 0
  · simp [diskPhase, finalizeRun, h0]
  · simp [diskPhase, finalizeRun, h0, Nat.pos_of_ne_zero h0]

/-- C7 counterexample.  The claim says that whenever block-commit fails the
recovery sequence executed is exactly abort-block-job, force-stop, start.
If the abort command itself raises (e.g. hits the 5-minute timeout), the
`except` at line 251 catches it and the force-stop and start are never
invoked: the executed sequence is `[abortJob]` alone. -/
theorem c7_recovery_sequence_counterexample :
    (commit_snapshot CmdRes.fail CmdRes.exn CmdRes.ok CmdRes.ok).snd ≠
      [RCmd.abortJob, RCmd.destroyVM, RCmd.startVM] ∧
    (commit_snapshot CmdRes.fail CmdRes.exn CmdRes.ok CmdRes.ok).snd =
      [RCmd.abortJob] ∧
    (commit_snapshot CmdRes.fail CmdRes.exn CmdRes.ok CmdRes.ok).fst
      = false := by
  decide

/-- C7 (amended).  Whenever block-commit fails, recovery runs
abort-block-job, then force-stop, then start, in that order; a recovery
command that merely exits nonzero (run with `check=False`) does not stop
the sequence, but one that raises (e.g. timeout) skips the remaining
recovery commands; in every case the disk outcome is Failed(commit) and no
recovery error escapes `commit_snapshot`. -/
theorem c7_commit_recovery_order (c a d s : CmdRes) (hc : c ≠ CmdRes.ok) :
    (commit_snapshot c a d s).fst = false ∧
    (commit_snapshot c a d s).snd =
      (if a = CmdRes.exn then [RCmd.abortJob]
       else if d = CmdRes.exn then [RCmd.abortJob, RCmd.destroyVM]
       else [RCmd.abortJob, RCmd.destroyVM, RCmd.startVM]) := by
  cases c with
  | ok => exact absurd rfl hc
  | fail => cases a <;> cases d <;> cases s <;> decide
  | exn => cases a <;> cases d <;> cases s <;> decide

/-- C7 witness: a failing commit whose three recovery commands all complete
(the force-stop exiting nonzero) still yields the full ordered sequence
and a Failed outcome. -/
theorem c7_commit_recovery_order_witness :
    (commit_snapshot CmdRes.fail CmdRes.ok CmdRes.fail CmdRes.ok).fst
      = false ∧
    (commit_snapshot CmdRes.fail CmdRes.ok CmdRes.fail CmdRes.ok).snd =
      (if CmdRes.ok = CmdRes.exn then [RCmd.abortJob]
       else if CmdRes.fail = CmdRes.exn then [RCmd.abortJob, RCmd.destroyVM]
       else [RCmd.abortJob, RCmd.destroyVM, RCmd.startVM]) :=
  c7_commit_recovery_order CmdRes.fail CmdRes.ok CmdRes.fail CmdRes.ok
    (by decide)

/-- C8 (confirmed).  The per-VM loop records a step for every VM in order
(first conjunct: one VM's failure never aborts the batch), the process
exits 0 iff no controller-level fatal error occurred and every processed
VM's step was ok, and exits 1 iff a fatal error occurred or at least one
VM's step was not ok. -/
theorem c8_batch_isolation_exit_status (envFatal : Bool) (vms : List VMEnv) :
    (main_loop 0 vms).snd = vms.map process_one_vm ∧
    (main_exit envFatal vms = 0 ↔
      (envFatal = false ∧ ∀ v ∈ vms, process_one_vm v = VMStep.ok)) ∧
    (main_exit envFatal vms = 1 ↔
      (envFatal = true ∨ ∃ v ∈ vms, process_one_vm v ≠ VMStep.ok)) := by
  refine ⟨main_loop_snd 0 vms, ?_, ?_⟩
  · cases envFatal <;> simp [main_exit, main_loop_zero]
  · cases envFatal
    · by_cases hall : ∀ v ∈ vms, process_one_vm v = VMStep.ok
      · have hfst : (main_loop 0 vms).fst = 0 := (main_loop_zero vms).mpr hall
        simp only [main_exit, Bool.false_eq_true, if_false, hfst]
        constructor
        · intro h01
          exact absurd h01 (by decide)
        · rintro (hfa | ⟨v, hv, hne⟩)
          · exact absurd hfa (by decide)
          · exact absurd (hall v hv) hne
      · have hne0 : (main_loop 0 vms).fst ≠ 0 :=
          fun hz => hall ((main_loop_zero vms).mp hz)
        have h1 : (main_loop 0 vms).fst = 1 := by
          rcases main_loop_fst_cases vms 0 (Or.inl rfl) with h | h
          · exact absurd h hne0
          · exact h
        push_neg at hall
        rcases hall with ⟨v, hv, hvne⟩
        simp only [main_exit, Bool.false_eq_true, if_false, h1]
        constructor
        · intro _
          exact Or.inr ⟨v, hv, hvne⟩
        · intro _
          trivial
    · simp [main_exit]

/-- C9 (confirmed).  With every needed `du` succeeding, the required space
is the sum of sizes of exactly the file-backed disks with a nonempty,
existing source — a missing source excludes the disk from the sum without
failing — and when that sum is zero `check_disk_space` raises the
`noValidDisks` precondition error (a constructor distinct from
`insufficientSpace`, the spec's `SpaceError`) with a result independent of
the destination's available space, i.e. before that space is read. -/
theorem c9_zero_sum_precondition (disks : List DiskInfo) (A sc A2 sc2 : Nat)
    (hdu : ∀ d ∈ disks, diskValid d = true → d.duOk = true) :
    calculate_required_space disks =
      Except.ok (((disks.filter diskValid).map DiskInfo.sizeMB).sum) ∧
    (((disks.filter diskValid).map DiskInfo.sizeMB).sum = 0 →
      check_disk_space disks A sc = some CheckErr.noValidDisks ∧
      check_disk_space disks A sc = check_disk_space disks A2 sc2) := by
  have h1 := calculate_required_space_eq disks hdu
  refine ⟨h1, fun hz => ?_⟩
  unfold check_disk_space
  rw [h1, hz]
  simp

/-- C9 witness: a VM whose only file-backed disk's source is missing. -/
theorem c9_zero_sum_precondition_witness :
    calculate_required_space [missingDisk] =
      Except.ok ((([missingDisk].filter diskValid).map DiskInfo.sizeMB).sum) ∧
    (check_disk_space [missingDisk] 5 0 = some CheckErr.noValidDisks ∧
      check_disk_space [missingDisk] 5 0 = check_disk_space [missingDisk] 999 7) :=
  ⟨(c9_zero_sum_precondition [missingDisk] 5 0 999 7 (by decide)).1,
   (c9_zero_sum_precondition [missingDisk] 5 0 999 7 (by decide)).2 (by decide)⟩

/-- C10 (confirmed).  The capacity check's result depends only on the
disks and the destination filesystem's available space: changing the
scratch filesystem's free space — in `check_disk_space` directly and
through a whole `backup_vm` run — never changes the outcome, because the
code never consults scratch availability. -/
theorem c10_scratch_space_noninterference (disks : List DiskInfo)
    (A sc1 sc2 : Nat) (e : Env) (sc : Nat) :
    check_disk_space disks A sc1 = check_disk_space disks A sc2 ∧
    backup_vm { e with scratchAvailMB := sc } = backup_vm e := by
  exact ⟨rfl, rfl⟩

end VMBackup
